import Mathlib

/-!
Formal model of the aijson-ml LLM invocation core
(src/aijson_ml/actions/llm.py and src/aijson_ml/utils/prompt_context.py).

The Python code is shallowly embedded as executable Lean definitions:
Python `dict` becomes an insertion-ordered association list with the
update semantics of `d[k] = v` (existing key updated in place, new key
appended); external collaborators (`json.loads`, the pydantic validator
built by `construct_model_from_schema`, `get_secret`) become function
parameters or, for the Ollama wire format, a small executable model of
the JSON subset the wire carries.  Machine strings are Lean `String`s
(or `List Char` where the code manipulates byte buffers).
-/

/-- Left-biased choice on options, used to state dictionary-merge facts. -/
def optOr {β : Type} : Option β → Option β → Option β
  | some b, _ => some b
  | none, o => o

/-- Concatenation of a list of lists (avoiding name drift across library versions). -/
def concatLists {β : Type} : List (List β) → List β
  | [] => []
  | l :: ls => l ++ concatLists ls

/-- Substring containment on character lists: Python's `sub in s`. -/
def charsContain (needle : List Char) : List Char → Bool
  | [] => needle.isEmpty
  | c :: rest => needle.isPrefixOf (c :: rest) || charsContain needle rest

/-- Python's `sub in s` on strings (used by `"gpt" not in model_config.model`
and `"claude" in model_config.model`). -/
def strIn (sub s : String) : Bool := charsContain sub.toList s.toList

/-- Python's `s.startswith(pre)` (used by the provider dispatch in `invoke_llm`). -/
def pyStartsWith (s pre : String) : Bool := pre.toList.isPrefixOf s.toList

/-- Python dict lookup `d.get(k)` on an insertion-ordered association list. -/
def pyDictGet? {κ α : Type} [BEq κ] : List (κ × α) → κ → Option α
  | [], _ => none
  | (k0, v) :: rest, k => if k0 == k then some v else pyDictGet? rest k

/-- Python dict assignment `d[k] = v`: an existing key keeps its position and
is updated, a new key is appended.  Dictionaries built only through this
operation never hold duplicate keys, matching Python. -/
def pyDictSet {κ α : Type} [BEq κ] : List (κ × α) → κ → α → List (κ × α)
  | [], k, v => [(k, v)]
  | (k0, v0) :: rest, k, v =>
    if k0 == k then (k0, v) :: rest else (k0, v0) :: pyDictSet rest k v

/-- Python dict merge `a |= b`: entries of `b` are assigned into `a` in order,
so on key collision the value from `b` (the later operand) wins. -/
def pyDictMerge {κ α : Type} [BEq κ] (a b : List (κ × α)) : List (κ × α) :=
  b.foldl (fun acc p => pyDictSet acc p.1 p.2) a

/-- Fold of `pyDictMerge` over a list of objects starting from the empty dict:
the shape of `data |= json.loads(tool_response)` iterated over all buffers. -/
def mergeAll {α : Type} (objs : List (List (String × α))) : List (String × α) :=
  objs.foldl pyDictMerge []

/-- The last binding of key `k` across the concatenation of `objs`, i.e. the
value contributed by the latest object (and latest position) mentioning `k`. -/
def lastBinding {α : Type} (objs : List (List (String × α))) (k : String) : Option α :=
  ((concatLists objs).reverse.find? (fun p => p.1 == k)).map (fun p => p.2)

/-!
## Prompt element model (src/aijson_ml/utils/prompt_context.py)
-/

/-- QuoteStyle enum (prompt_context.py lines 25-27). -/
inductive QuoteStyle where
  | backticks
  | xml
deriving DecidableEq

/-- RoleElement (prompt_context.py lines 38-45); the role literal is modelled
as a string drawn from "user" / "system" / "assistant". -/
structure RoleElement where
  role : String
deriving DecidableEq

/-- TextElement (prompt_context.py lines 48-59). -/
structure TextElement where
  text : String
  role : Option String
deriving DecidableEq

/-- ContextElement (prompt_context.py lines 62-110). -/
structure ContextElement where
  value : String
  heading : String
deriving DecidableEq

/-- PromptElement union (prompt_context.py lines 113-118): RoleElement,
TextElement, ContextElement or a plain string. -/
inductive PromptElement where
  | role (e : RoleElement)
  | text (e : TextElement)
  | context (e : ContextElement)
  | str (s : String)
deriving DecidableEq

/-- `RoleElement.as_string` raises `RuntimeError("RoleElement cannot be
converted to a string.")` (prompt_context.py lines 41-45); the raise is
modelled as `Except.error`. -/
def RoleElement.as_string (_ : RoleElement) (_ : QuoteStyle) : Except String String :=
  Except.error ("RoleElement cannot be converted to a string.")

/-- `TextElement.as_string` returns the text (prompt_context.py lines 55-59). -/
def TextElement.as_string (te : TextElement) (_ : QuoteStyle) : String := te.text

/-- `ContextElement.as_string` (prompt_context.py lines 78-110). -/
def ContextElement.as_string (ce : ContextElement) (qs : QuoteStyle) : String :=
  match qs with
  | QuoteStyle.backticks => ce.heading ++ (":\n```\n") ++ ce.value ++ ("\n```")
  | QuoteStyle.xml => ("<") ++ ce.heading ++ (">\n") ++ ce.value ++ ("\n</") ++ ce.heading ++ (">")

/-- Dynamic dispatch of `prompt_element.as_string(quote_style)` over the union.
The `.str` case never arises in `build_messages` (plain strings are handled by
the `isinstance(prompt_element, str)` branch before any `as_string` call). -/
def PromptElement.as_string : PromptElement → QuoteStyle → Except String String
  | PromptElement.role re, q => RoleElement.as_string re q
  | PromptElement.text te, q => Except.ok (TextElement.as_string te q)
  | PromptElement.context ce, q => Except.ok (ContextElement.as_string ce q)
  | PromptElement.str s, _ => Except.ok s

/-!
## Message assembly (llm.py `Prompt.build_messages`, lines 208-296)

Token counting and trimming (lines 270-294) call the external litellm
collaborators `token_counter` and `trim_messages` and are applied after the
message list is constructed; the constructed (pre-trim) list is modelled here.
-/

/-- A chat message `{"role": ..., "content": ...}`. -/
structure ChatMessage where
  role : String
  content : String
deriving DecidableEq

/-- Python `"\n\n".join(l)`. -/
def joinStrs : List String → String
  | [] => ""
  | s :: rest =>
    match rest with
    | [] => s
    | _ :: _ => s ++ ("\n\n") ++ joinStrs rest

/-- The mutable state of the `build_messages` walk (llm.py lines 220-222):
`messages`, `current_role` (initially "user"), `current_message_elements`. -/
structure BuildState where
  messages : List ChatMessage
  current_role : String
  current_message_elements : List String
deriving DecidableEq

/-- `deposit_messages(new_role)` (llm.py lines 224-237): flush the buffer as
one message if non-empty, reset the buffer, switch the role. -/
def deposit_messages (st : BuildState) (new_role : String) : BuildState :=
  { messages :=
      if st.current_message_elements.isEmpty then st.messages
      else st.messages ++ [{ role := st.current_role, content := joinStrs st.current_message_elements }],
    current_role := new_role,
    current_message_elements := [] }

/-- Append a rendered string to the element buffer
(`current_message_elements.append(as_str)`, llm.py line 261). -/
def appendElem (st : BuildState) (s : String) : BuildState :=
  { st with current_message_elements := st.current_message_elements ++ [s] }

/-- One iteration of the element walk (llm.py lines 248-261):
a RoleElement deposits and continues (its `as_string` is never called);
a TextElement with a role deposits first; then the element is rendered
(plain strings verbatim, others via `as_string`) and buffered. -/
def build_step (qs : QuoteStyle) (st : BuildState) : PromptElement → Except String BuildState
  | PromptElement.role re => Except.ok (deposit_messages st re.role)
  | PromptElement.text te =>
    let st1 :=
      match te.role with
      | some r => deposit_messages st r
      | none => st
    match PromptElement.as_string (PromptElement.text te) qs with
    | Except.error err => Except.error err
    | Except.ok s => Except.ok (appendElem st1 s)
  | PromptElement.context ce =>
    match PromptElement.as_string (PromptElement.context ce) qs with
    | Except.error err => Except.error err
    | Except.ok s => Except.ok (appendElem st s)
  | PromptElement.str s => Except.ok (appendElem st s)

/-- The element walk as a fold, propagating the (unreachable) render error. -/
def build_fold (qs : QuoteStyle) : BuildState → List PromptElement → Except String BuildState
  | st, [] => Except.ok st
  | st, e :: rest =>
    match build_step qs st e with
    | Except.error err => Except.error err
    | Except.ok st2 => build_fold qs st2 rest

/-- `build_messages` on a list of prompt elements (llm.py lines 247-268):
walk the elements, then flush any remaining buffer. -/
def build_messages_list (qs : QuoteStyle) (elems : List PromptElement) : Except String (List ChatMessage) :=
  match build_fold qs { messages := [], current_role := ("user"), current_message_elements := [] } elems with
  | Except.error err => Except.error err
  | Except.ok st =>
    if st.current_message_elements.isEmpty then Except.ok st.messages
    else Except.ok (st.messages ++ [{ role := st.current_role, content := joinStrs st.current_message_elements }])

/-- The `message_config` argument: a bare string or a list of elements. -/
inductive MessageConfig where
  | str (s : String)
  | elems (l : List PromptElement)

/-- Quote style resolution (llm.py lines 214-218): XML for models whose
identifier contains "claude", backticks otherwise. -/
def resolve_quote_style (model : String) (quote_style : Option QuoteStyle) : QuoteStyle :=
  match quote_style with
  | some q => q
  | none => if strIn ("claude") model then QuoteStyle.xml else QuoteStyle.backticks

/-- `Prompt.build_messages` (llm.py lines 208-268, before token trimming):
a bare string becomes a single user message verbatim (lines 239-246),
a list of elements is walked by `build_messages_list`. -/
def build_messages (cfg : MessageConfig) (model : String) (quote_style : Option QuoteStyle) :
    Except String (List ChatMessage) :=
  let q := resolve_quote_style model quote_style
  match cfg with
  | MessageConfig.str s => Except.ok [{ role := ("user"), content := s }]
  | MessageConfig.elems l => build_messages_list q l

/-- Boolean success test on `Except`. -/
def isOkE {ε β : Type} : Except ε β → Bool
  | Except.ok _ => true
  | Except.error _ => false

/-- `isRoleMarker` distinguishes pure role markers in an element sequence. -/
def isRoleMarker : PromptElement → Bool
  | PromptElement.role _ => true
  | _ => false

/-- Count of maximal runs of non-role elements in the sequence (the "role
segments" that contain at least one text-bearing element); the flag records
whether a run is currently open. -/
def countRunsAux : List PromptElement → Bool → Nat
  | [], _ => 0
  | e :: rest, inRun =>
    if isRoleMarker e then countRunsAux rest false
    else (if inRun then 0 else 1) + countRunsAux rest true

/-- Number of role segments containing at least one non-role element. -/
def countTextRuns (elems : List PromptElement) : Nat := countRunsAux elems false

/-- The element is a RoleElement or a TextElement with no role override
(the shape of a sequence alternating RoleSwitch markers and TextBlocks). -/
def plainAlternating : PromptElement → Bool
  | PromptElement.role _ => true
  | PromptElement.text te => te.role.isNone
  | _ => false

/-- The element, if a TextElement, has non-empty text. -/
def textNonEmpty : PromptElement → Bool
  | PromptElement.text te => !(te.text == (""))
  | _ => true

/-- Pending-message count of a build state: 1 when the element buffer is
non-empty (it will flush into one more message), else 0. -/
def pendingCount (st : BuildState) : Nat :=
  if st.current_message_elements.isEmpty then 0 else 1

/-!
## Generic adapter streaming (llm.py `_invoke_litellm`, lines 431-513)
-/

/-- `delta_obj.tool_calls[0]` when `tool_calls` is present: the slot index and
the (possibly absent) argument-string fragment `tool_call.function.arguments`. -/
structure ToolCallDelta where
  index : Nat
  arguments : Option String
deriving DecidableEq

/-- One streamed delta object `completion.choices[0].delta`: optional text
content and optional first tool call. -/
structure Delta where
  content : Option String
  tool_calls : Option ToolCallDelta
deriving DecidableEq

/-- `use_tool_calling = "gpt" not in model_config.model` (llm.py line 446):
substring containment, not a prefix test. -/
def use_tool_calling (model : String) : Bool := !(strIn ("gpt") model)

/-- Whether the delta loop runs in tool-calling mode:
`schema is not None and use_tool_calling` (llm.py line 499). -/
def litellm_tool_mode (model : String) (schemaPresent : Bool) : Bool :=
  schemaPresent && use_tool_calling model

/-- The litellm delta loop (llm.py lines 497-510): per delta, in tool mode the
payload is the first tool call's argument fragment (updating `tool_index`),
otherwise the text content; a `None` payload breaks out of the loop, any other
payload is yielded with the current `tool_index` and streaming continues. -/
def litellm_yield_loop (toolMode : Bool) : List Delta → Option Nat → List (String × Option Nat)
  | [], _ => []
  | d :: rest, tool_index =>
    match (if toolMode then
             match d.tool_calls with
             | some tc => ((tc.arguments : Option String), some tc.index)
             | none => (none, tool_index)
           else (d.content, tool_index)) with
    | (none, _) => []
    | (some s, ti2) => (s, ti2) :: litellm_yield_loop toolMode rest ti2

/-- The payload a delta resolves to under the current mode: the tool-call
argument fragment in tool-calling mode, the text content otherwise. -/
def modePayload (toolMode : Bool) (d : Delta) : Option String :=
  if toolMode then
    match d.tool_calls with
    | some tc => tc.arguments
    | none => none
  else d.content

/-- Longest prefix of defined payloads, in order: the events a stream with
this termination rule emits. -/
def collectWhileSome {β : Type} : List (Option β) → List β
  | [] => []
  | none :: _ => []
  | some b :: rest => b :: collectWhileSome rest

/-!
## Schema-driven request shaping (llm.py lines 445-471)
-/

/-- The structured-output request shape chosen by `_invoke_litellm`
(llm.py lines 445-471): nothing without a schema; a provider-native strict
JSON-schema `response_format` when `use_tool_calling` is false; otherwise a
single synthetic function tool with `tool_choice = "required"` whose
parameter schema is the dumped output schema. -/
inductive SchemaKwargs (σ : Type) where
  | empty : SchemaKwargs σ
  | responseFormat (name : String) (schema : σ) (strict : Bool) : SchemaKwargs σ
  | toolCalling (toolChoice : String) (fnName : String) (parameters : σ) : SchemaKwargs σ
deriving DecidableEq

/-- `schema_kwargs` construction (llm.py lines 445-471); the pydantic
`schema.model_dump(exclude_unset=True)` serialization is external and the
dumped schema is carried through as an opaque value. -/
def schema_kwargs {σ : Type} (model : String) (schema : Option σ) : SchemaKwargs σ :=
  match schema with
  | none => SchemaKwargs.empty
  | some js =>
    if use_tool_calling model
    then SchemaKwargs.toolCalling ("required") ("function") js
    else SchemaKwargs.responseFormat ("function") js true

/-- Provider routing in `invoke_llm` (llm.py lines 523-538). -/
inductive ProviderRoute where
  | anthropic
  | ollama
  | litellm
deriving DecidableEq

/-- `invoke_llm` dispatch (llm.py lines 523-538): native Anthropic for
`claude*` without schema, native Ollama for `ollama/*` without schema,
generic litellm adapter otherwise. -/
def invoke_llm_route (model : String) (schemaPresent : Bool) : ProviderRoute :=
  if pyStartsWith model ("claude") && !schemaPresent then ProviderRoute.anthropic
  else if pyStartsWith model ("ollama/") && !schemaPresent then ProviderRoute.ollama
  else ProviderRoute.litellm

/-!
## Ollama wire parsing (llm.py `_invoke_ollama`, lines 391-429)

`json.loads` is the Python standard library; it is modelled here by an
executable parser for the JSON fragment the Ollama wire format carries
(strings and objects, no escape sequences or interior whitespace); inputs
outside that fragment decode to `none`, as malformed lines do under
`json.loads`.
-/

/-- JSON values of the modelled fragment: strings and objects. -/
inductive JsonV where
  | str (s : List Char)
  | obj (fields : List (List Char × JsonV))

/-- Parse the body of a JSON string after the opening quote (no escapes). -/
def parseStringBody : List Char → Option (List Char × List Char)
  | [] => none
  | c :: rest =>
    if c = '\x22' then some ([], rest)
    else if c = '\x5c' then none
    else
      match parseStringBody rest with
      | none => none
      | some (s, r) => some (c :: s, r)

/-- Parse a non-empty field list `"k":v(,"k":v)*` up to the closing brace,
with values parsed by `pv`; fuelled by the number of remaining fields. -/
def parseFieldsWith (pv : List Char → Option (JsonV × List Char)) :
    Nat → List Char → Option (List (List Char × JsonV) × List Char)
  | 0, _ => none
  | Nat.succ fuel, cs =>
    match cs with
    | '\x22' :: rest =>
      match parseStringBody rest with
      | none => none
      | some (key, r1) =>
        match r1 with
        | ':' :: r2 =>
          match pv r2 with
          | none => none
          | some (v, r3) =>
            match r3 with
            | ',' :: r4 =>
              match parseFieldsWith pv fuel r4 with
              | none => none
              | some (fs, r5) => some ((key, v) :: fs, r5)
            | '\x7d' :: r4 => some ([(key, v)], r4)
            | _ => none
        | _ => none
    | _ => none

/-- Parse one JSON value (string or object), fuelled by nesting depth. -/
def parseValue : Nat → List Char → Option (JsonV × List Char)
  | 0, _ => none
  | Nat.succ fuel, cs =>
    match cs with
    | '\x22' :: rest =>
      match parseStringBody rest with
      | none => none
      | some (s, r) => some (JsonV.str s, r)
    | '\x7b' :: rest =>
      match rest with
      | '\x7d' :: r2 => some (JsonV.obj [], r2)
      | _ =>
        match parseFieldsWith (parseValue fuel) (rest.length + 1) rest with
        | none => none
        | some (fs, r2) => some (JsonV.obj fs, r2)
    | _ => none

/-- Model of `json.loads` on the wire fragment: the whole input must be
consumed; anything else raises `JSONDecodeError`, modelled as `none`. -/
def json_loads (cs : List Char) : Option JsonV :=
  match parseValue (cs.length + 1) cs with
  | some (v, []) => some v
  | _ => none

/-- Python truthiness of the extracted delta (`if delta:` at llm.py line 406):
non-empty string, or non-empty object. -/
def jsonTruthy : JsonV → Bool
  | JsonV.str s => !s.isEmpty
  | JsonV.obj fs => !fs.isEmpty

/-- `process_completion` (llm.py lines 391-407): empty lines, undecodable
lines, and lines without a `message` object carrying a `content` key are
skipped (`None`); a falsy content is also skipped; otherwise the content
is the yielded delta. -/
def process_completion (completion : List Char) : Option JsonV :=
  if completion.isEmpty then none
  else
    match json_loads completion with
    | none => none
    | some data =>
      match data with
      | JsonV.obj fields =>
        match pyDictGet? fields (("message").toList) with
        | some (JsonV.obj msgFields) =>
          match pyDictGet? msgFields (("content").toList) with
          | some delta => if jsonTruthy delta then some delta else none
          | none => none
        | some _ => none
        | none => none
      | _ => none

/-- Split off the first line at the first newline, if any
(`buffer.split("\n", 1)` guarded by `"\n" in buffer`). -/
def splitFirstNl : List Char → Option (List Char × List Char)
  | [] => none
  | c :: rest =>
    if c = '\n' then some ([], rest)
    else
      match splitFirstNl rest with
      | none => none
      | some (line, r) => some (c :: line, r)

/-- The inner `while "\n" in buffer` loop (llm.py lines 421-425): extract all
complete lines, returning them with the remaining (line-less) buffer.  The
fuel only bounds the iteration count; each split consumes at least the
newline, so `length + 1` fuel always suffices. -/
def drainBufferFuel : Nat → List Char → List (List Char) × List Char
  | 0, cs => ([], cs)
  | Nat.succ fuel, cs =>
    match splitFirstNl cs with
    | none => ([], cs)
    | some (line, rest) =>
      let p := drainBufferFuel fuel rest
      (line :: p.1, p.2)

/-- The chunk loop (llm.py lines 418-429): append each network chunk to the
buffer, emit every complete line, and after the connection closes process the
trailing partial line if non-empty. -/
def ollama_feed : List (List Char) → List Char → List (List Char)
  | [], buffer => if buffer.isEmpty then [] else [buffer]
  | chunk :: rest, buffer =>
    let p := drainBufferFuel ((buffer ++ chunk).length + 1) (buffer ++ chunk)
    p.1 ++ ollama_feed rest p.2

/-- The deltas `_invoke_ollama` yields for a chunked response body: every
line (and the trailing partial line) through `process_completion`, skipping
the `None`s. -/
def ollama_yields (chunks : List (List Char)) : List JsonV :=
  (ollama_feed chunks []).filterMap process_completion

/-- View of a yielded delta as a string, `none` for non-string deltas. -/
def jstr? : JsonV → Option (List Char)
  | JsonV.str s => some s
  | _ => none

/-- The first line of the specified two-line payload. -/
def ollamaLine1 : List Char := ("\x7b\"message\":\x7b\"content\":\"Hi\"\x7d\x7d").toList

/-- The second line of the specified two-line payload. -/
def ollamaLine2 : List Char := ("\x7b\"message\":\x7b\"content\":\" there\"\x7d\x7d").toList

/-- The newline-delimited two-line payload from the specification. -/
def ollamaPayload : List Char := ollamaLine1 ++ ('\n' :: (ollamaLine2 ++ [ '\n' ]))

/-- A line that is not JSON at all. -/
def ollamaBadLine : List Char := ("not json").toList

/-- A structurally valid line whose content is empty (falsy, skipped). -/
def ollamaEmptyContentLine : List Char := ("\x7b\"message\":\x7b\"content\":\"\"\x7d\x7d").toList

/-- A decodable line missing the `message` key (structurally unexpected). -/
def ollamaNoMessageLine : List Char := ("\x7b\"content\":\"x\"\x7d").toList

/-!
## Streaming accumulator (llm.py `iterate_invoke_llm`, lines 601-623)

`json.loads` on a tool buffer, restricted to the successful-object case the
`partial_data |= loaded_output` statement consumes, is a parameter
`loads : String → Option (List (String × α))`; `none` models
`JSONDecodeError`, which the accumulator swallows (`except JSONDecodeError:
pass`, lines 621-622).
-/

/-- Accumulated state of one invocation attempt: `output`, the per-slot
`tool_responses` buffers (a `defaultdict(str)`), and the opportunistically
merged `partial_data`. -/
structure AccState (α : Type) where
  output : String
  tool_responses : List (Nat × String)
  partial_data : List (String × α)
deriving DecidableEq

/-- The fresh state built at the top of each `iterate_invoke_llm` call
(lines 607-609). -/
def freshAcc {α : Type} : AccState α := { output := (""), tool_responses := [], partial_data := [] }

/-- One accumulation step (llm.py lines 615-622): append the delta to
`output`; with a tool index, extend that slot's buffer (created empty on
first touch, as `defaultdict(str)` does), try to decode the whole buffer and
on success merge its keys into `partial_data`, on failure leave it alone. -/
def acc_step {α : Type} (loads : String → Option (List (String × α)))
    (st : AccState α) (ev : String × Option Nat) : AccState α :=
  let output := st.output ++ ev.1
  match ev.2 with
  | none => { st with output := output }
  | some i =>
    let buf := ((pyDictGet? st.tool_responses i).getD ("")) ++ ev.1
    let tool_responses := pyDictSet st.tool_responses i buf
    let partial_data :=
      match loads buf with
      | some obj => pyDictMerge st.partial_data obj
      | none => st.partial_data
    { output := output, tool_responses := tool_responses, partial_data := partial_data }

/-- The snapshots yielded after each event, starting from a given state. -/
def iterate_invoke_llm_from {α : Type} (loads : String → Option (List (String × α))) :
    List (String × Option Nat) → AccState α → List (AccState α)
  | [], _ => []
  | ev :: rest, st =>
    let st2 := acc_step loads st ev
    st2 :: iterate_invoke_llm_from loads rest st2

/-- `iterate_invoke_llm` (llm.py lines 601-623): state is created fresh at the
top of the call, and one snapshot is yielded per event. -/
def iterate_invoke_llm {α : Type} (loads : String → Option (List (String × α)))
    (events : List (String × Option Nat)) : List (AccState α) :=
  iterate_invoke_llm_from loads events freshAcc

/-- The incremental output object yielded per snapshot (llm.py lines 669-673):
`result` and `response` are the cumulative text, `data` is
`partial_data or None` — the empty dict is falsy and becomes `None`. -/
structure OutputsModel (α : Type) where
  result : String
  response : String
  data : Option (List (String × α))
deriving DecidableEq

/-- Build the yielded `Outputs` from a snapshot (llm.py lines 669-673). -/
def mkOutputs {α : Type} (st : AccState α) : OutputsModel α :=
  { result := st.output, response := st.output,
    data := if st.partial_data.isEmpty then none else some st.partial_data }

/-!
## Retry orchestration (llm.py `run`, lines 647-673)
-/

/-- One retry attempt of the provider stream: the events it emits before its
outcome, and whether it completes (`succeeds = true`) or raises a retryable
error after those events (`succeeds = false`). -/
structure Attempt where
  events : List (String × Option Nat)
  succeeds : Bool
deriving DecidableEq

/-- The effect of `async for (output, tool_responses, partial_data) in ...`
on the enclosing `output` / `tool_responses` variables: every yielded
snapshot reassigns them, so after the loop they hold the last snapshot's
values — or their previous values if the attempt yielded nothing. -/
def last_yield {α : Type} (snaps : List (AccState α)) (acc : String × List (Nat × String)) :
    String × List (Nat × String) :=
  snaps.foldl (fun _ st => (st.output, st.tool_responses)) acc

/-- The retry loop of `run` (llm.py lines 649-673): each attempt re-invokes
`iterate_invoke_llm` (fresh accumulator state), the loop variables are
reassigned per yield, a failed attempt is retried and a successful one ends
the loop with the current variable values; `none` means no modelled attempt
succeeded. -/
def run_attempts {α : Type} (loads : String → Option (List (String × α))) :
    List Attempt → String × List (Nat × String) → Option (String × List (Nat × String))
  | [], _ => none
  | a :: rest, acc =>
    let acc2 := last_yield (iterate_invoke_llm loads a.events) acc
    if a.succeeds then some acc2 else run_attempts loads rest acc2

/-- The retry loop started from the initial `output = ""`,
`tool_responses = defaultdict(str)` (llm.py lines 647-648). -/
def run_loop {α : Type} (loads : String → Option (List (String × α)))
    (attempts : List Attempt) : Option (String × List (Nat × String)) :=
  run_attempts loads attempts ((""), [])

/-- Concatenation of event deltas onto an initial string, in delivery order. -/
def concatFrom (s : String) (evs : List (String × Option Nat)) : String :=
  evs.foldl (fun acc2 e => acc2 ++ e.1) s

/-!
## Structured output finalization (llm.py `parse_structured_response`, lines 568-599)

`json.loads` restricted to object results is the parameter `loads`
(a non-object JSON result would hit the untouched `TypeError` path of
`data |= ...`, outside this model); the pydantic validator produced by
`construct_model_from_schema` is the parameter `model?` — `none` models a
schema that fails to compile, `some validate` a validator whose
`model_validate` succeeds exactly when `validate` returns `true`.
-/

/-- `mergeDecodedBuffers loads data buffers` models
`try: for tool_response in buffers: data |= json.loads(tool_response)
except JSONDecodeError: return None` (llm.py lines 574-581): the whole loop
sits inside one `try`, so the first undecodable buffer aborts everything. -/
def mergeDecodedBuffers {α : Type} (loads : String → Option (List (String × α))) :
    List (String × α) → List String → Option (List (String × α))
  | data, [] => some data
  | data, tr :: rest =>
    match loads tr with
    | none => none
    | some obj => mergeDecodedBuffers loads (pyDictMerge data obj) rest

/-- `parse_structured_response` (llm.py lines 568-599): with tool buffers,
merge all their decoded objects (aborting on any decode failure); without
any, decode `output` directly; then validate against the schema-derived
model, failing on validation errors or an uncompilable schema. -/
def parse_structured_response {α : Type} (loads : String → Option (List (String × α)))
    (model? : Option (List (String × α) → Bool))
    (tool_responses : List (Nat × String)) (output : String) : Option (List (String × α)) :=
  let data? :=
    if tool_responses.isEmpty then loads output
    else mergeDecodedBuffers loads [] (tool_responses.map (fun p => p.2))
  match data? with
  | none => none
  | some data =>
    match model? with
    | none => none
    | some validate => if validate data then some data else none

/-!
## Credential-injection context (llm.py `PromptEnvContext`, lines 66-110)

`get_secret` is an external collaborator (spec section 6: resolution
mechanism out of scope), modelled as the `Secrets` record; the temporary
credentials file is abstracted to its name.  Only the two environment
variables the context touches are modelled.
-/

/-- The two environment variables the context reads and writes. -/
structure EnvMap where
  anthropic_api_key : Option String
  google_application_credentials : Option String
deriving DecidableEq

/-- The secrets `get_secret` resolves for the context. -/
structure Secrets where
  anthropic_api_key : Option String
  gcp_credentials_64 : Option String

/-- The context object's instance state (llm.py lines 72-76); note `exit`
never resets the backups to `None`. -/
structure PromptEnvContextState where
  anthropic_env_var_bak : Option String
  gcp_env_var_bak : Option String
  file : Option String
deriving DecidableEq

/-- `PromptEnvContext.__init__` (llm.py lines 72-76). -/
def promptEnvContext_init : PromptEnvContextState :=
  { anthropic_env_var_bak := none, gcp_env_var_bak := none, file := none }

/-- `PromptEnvContext.enter` (llm.py lines 78-93): if the Anthropic secret
resolves, back up and overwrite `ANTHROPIC_API_KEY`; if the GCP secret
resolves, materialize it to a temp file, back up and overwrite
`GOOGLE_APPLICATION_CREDENTIALS` with the file name.  An absent secret
leaves both the variable and the (stale) backup untouched. -/
def PromptEnvContext_enter (secrets : Secrets) (tmp_file_name : String)
    (env : EnvMap) (st : PromptEnvContextState) : EnvMap × PromptEnvContextState :=
  let p1 :=
    match secrets.anthropic_api_key with
    | some key =>
      ({ env with anthropic_api_key := some key },
       { st with anthropic_env_var_bak := env.anthropic_api_key })
    | none => (env, st)
  match secrets.gcp_credentials_64 with
  | some _ =>
    ({ p1.1 with google_application_credentials := some tmp_file_name },
     { p1.2 with gcp_env_var_bak := p1.1.google_application_credentials, file := some tmp_file_name })
  | none => p1

/-- `PromptEnvContext.exit` (llm.py lines 95-107): restore each variable from
its backup when the backup is non-`None`, otherwise delete the variable if
present.  This runs on every exit path of the `with` block, exceptions
included. -/
def PromptEnvContext_exit (env : EnvMap) (st : PromptEnvContextState) :
    EnvMap × PromptEnvContextState :=
  let env1 :=
    match st.anthropic_env_var_bak with
    | some bak => { env with anthropic_api_key := some bak }
    | none => { env with anthropic_api_key := none }
  let env2 :=
    match st.gcp_env_var_bak with
    | some bak => { env1 with google_application_credentials := some bak }
    | none => { env1 with google_application_credentials := none }
  (env2, st)

/-!
## Concrete instances used by counterexamples and witnesses
-/

/-- A decode function for C1: buffer "A" decodes to one object, buffer "B"
to another, anything else fails to decode. -/
def c1_loads : String → Option (List (String × Int)) :=
  fun s =>
    if s = ("A") then some [(("a"), 1)]
    else if s = ("B") then some [(("b"), 2)]
    else none

/-- A validator for C1 that accepts everything. -/
def c1_validate : List (String × Int) → Bool := fun _ => true

/-- An initial environment for C2 holding application-default credentials. -/
def c2_env0 : EnvMap :=
  { anthropic_api_key := none, google_application_credentials := some ("/home/user/adc.json") }

/-- A secret store for C2 where both secrets are absent. -/
def c2_secrets : Secrets := { anthropic_api_key := none, gcp_credentials_64 := none }

/-- A decode function that never succeeds (no tool buffer parses). -/
def c5_loads : String → Option (List (String × Int)) := fun _ => none

/-- A first attempt that emits one text delta and then fails transiently. -/
def c5_fail_attempt : Attempt := { events := [((("lost")), none)], succeeds := false }

/-- A successful attempt emitting two text deltas. -/
def c5_ok_attempt : Attempt := { events := [((("ok")), none), ((("!")), none)], succeeds := true }

/-- A successful attempt that emits no events at all. -/
def c5_empty_ok : Attempt := { events := [], succeeds := true }

/-- A decode function for C10 under which the buffer `{}` decodes to the
empty object, as `json.loads("{}")` does. -/
def c10_loads : String → Option (List (String × Int)) :=
  fun s => if s = ("\x7b\x7d") then some [] else none

/-- A single chunk interleaving the two good lines with a non-JSON line, an
empty-content line and a line missing the `message` key. -/
def ollamaMixedChunk : List Char :=
  ollamaLine1 ++ ('\n' :: (ollamaBadLine ++ ('\n' :: (ollamaEmptyContentLine ++
    ('\n' :: (ollamaNoMessageLine ++ ('\n' :: (ollamaLine2 ++ [ '\n' ]))))))))

/-!
## Helper lemmas
-/

theorem optOr_none_right {β : Type} (o : Option β) : optOr o none = o := by
  cases o <;> rfl

theorem optOr_assoc {β : Type} (a b c : Option β) :
    optOr (optOr a b) c = optOr a (optOr b c) := by
  cases a <;> cases b <;> rfl

theorem find?_append_optOr {β : Type} (p : β → Bool) (l1 l2 : List β) :
    (l1 ++ l2).find? p = optOr (l1.find? p) (l2.find? p) := by
  induction l1 with
  | nil => rfl
  | cons a t ih =>
    by_cases h : p a <;> simp [List.find?, h, ih, optOr]

theorem pyDictGet?_set {κ α : Type} [BEq κ] [LawfulBEq κ]
    (d : List (κ × α)) (k : κ) (v : α) (q : κ) :
    pyDictGet? (pyDictSet d k v) q = if k == q then some v else pyDictGet? d q := by
  induction d with
  | nil => rfl
  | cons p rest ih =>
    obtain ⟨k0, v0⟩ := p
    by_cases h0 : (k0 == k) = true
    · have hk : k0 = k := eq_of_beq h0
      subst hk
      simp [pyDictSet, pyDictGet?]
      by_cases hq : (k0 == q) = true <;> simp [hq]
    · by_cases hq : (k0 == q) = true
      · have : (k == q) = false := by
          cases hkq : (k == q) with
          | false => rfl
          | true =>
            exact absurd (by rw [eq_of_beq hq, eq_of_beq hkq]) (fun he => h0 (beq_iff_eq.mpr he))
        simp [pyDictSet, pyDictGet?, h0, hq, this]
      · simp [pyDictSet, pyDictGet?, h0, hq, ih]

theorem pyDictGet?_merge {κ α : Type} [BEq κ] [LawfulBEq κ] (b a : List (κ × α)) (q : κ) :
    pyDictGet? (pyDictMerge a b) q
      = optOr ((b.reverse.find? (fun p => p.1 == q)).map (fun p => p.2)) (pyDictGet? a q) := by
  induction b generalizing a with
  | nil => rfl
  | cons p rest ih =>
    obtain ⟨k0, v0⟩ := p
    have hstep : pyDictMerge a ((k0, v0) :: rest) = pyDictMerge (pyDictSet a k0 v0) rest := rfl
    rw [hstep, ih, pyDictGet?_set, List.reverse_cons, find?_append_optOr]
    cases hfind : rest.reverse.find? (fun p => p.1 == q) with
    | some pr => simp [optOr]
    | none =>
      by_cases hk : (k0 == q) = true <;> simp [optOr, List.find?, hk]

theorem pyDictGet?_foldl_merge {κ α : Type} [BEq κ] [LawfulBEq κ]
    (objs : List (List (κ × α))) (a : List (κ × α)) (q : κ) :
    pyDictGet? (objs.foldl pyDictMerge a) q
      = optOr (((concatLists objs).reverse.find? (fun p => p.1 == q)).map (fun p => p.2))
          (pyDictGet? a q) := by
  induction objs generalizing a with
  | nil => rfl
  | cons o rest ih =>
    have hcat : concatLists (o :: rest) = o ++ concatLists rest := rfl
    rw [List.foldl_cons, ih, pyDictGet?_merge, hcat, List.reverse_append, find?_append_optOr]
    cases h1 : (concatLists rest).reverse.find? (fun p => p.1 == q) <;>
      cases h2 : o.reverse.find? (fun p => p.1 == q) <;> simp [optOr]

theorem pyDictGet?_mergeAll {α : Type} (objs : List (List (String × α))) (q : String) :
    pyDictGet? (mergeAll objs) q = lastBinding objs q := by
  rw [mergeAll, pyDictGet?_foldl_merge, lastBinding]
  exact optOr_none_right _

theorem joinStrs_ne_empty : ∀ (l : List String), l ≠ [] → (∀ s ∈ l, s ≠ ("")) → joinStrs l ≠ ("")
  | [], hne, _ => absurd rfl hne
  | [s], _, h => by simpa using h s (by simp)
  | s :: t :: rest, _, h => by
    intro hc
    have hstep : joinStrs (s :: t :: rest) = s ++ ("\n\n") ++ joinStrs (t :: rest) := rfl
    have hlen := congrArg String.length hc
    rw [hstep] at hlen
    simp [String.length_append] at hlen
    have h2 : ("\n\n").length = 2 := rfl
    omega

theorem deposit_elements (st : BuildState) (r : String) :
    (deposit_messages st r).current_message_elements = [] := rfl

theorem deposit_len (st : BuildState) (r : String) :
    (deposit_messages st r).messages.length = st.messages.length + pendingCount st := by
  unfold deposit_messages pendingCount
  by_cases h : st.current_message_elements.isEmpty <;> simp [h]

theorem deposit_content (st : BuildState) (r : String)
    (hmsg : ∀ m ∈ st.messages, m.content ≠ (""))
    (hcur : ∀ s ∈ st.current_message_elements, s ≠ ("")) :
    ∀ m ∈ (deposit_messages st r).messages, m.content ≠ ("") := by
  unfold deposit_messages
  by_cases h : st.current_message_elements.isEmpty
  · simpa [h] using hmsg
  · simp only [h, if_false]
    intro m hm
    rcases List.mem_append.mp hm with h1 | h2
    · exact hmsg m h1
    · have hne : st.current_message_elements ≠ [] := by
        intro hnil; rw [hnil] at h; exact h rfl
      have hm2 : m = { role := st.current_role, content := joinStrs st.current_message_elements } :=
        List.mem_singleton.mp h2
      rw [hm2]
      exact joinStrs_ne_empty _ hne hcur

theorem build_fold_invariant (qs : QuoteStyle) :
    ∀ (elems : List PromptElement) (st : BuildState),
      (∀ e ∈ elems, plainAlternating e = true ∧ textNonEmpty e = true) →
      (∀ m ∈ st.messages, m.content ≠ ("")) →
      (∀ s ∈ st.current_message_elements, s ≠ ("")) →
      ∃ st2, build_fold qs st elems = Except.ok st2
        ∧ st2.messages.length + pendingCount st2
            = st.messages.length + pendingCount st
              + countRunsAux elems (!st.current_message_elements.isEmpty)
        ∧ (∀ m ∈ st2.messages, m.content ≠ (""))
        ∧ (∀ s ∈ st2.current_message_elements, s ≠ ("")) := by
  intro elems
  induction elems with
  | nil =>
    intro st _ hmsg hcur
    exact ⟨st, rfl, by simp [countRunsAux], hmsg, hcur⟩
  | cons e rest ih =>
    intro st hall hmsg hcur
    have he := hall e (List.mem_cons_self e rest)
    have hrest : ∀ x ∈ rest, plainAlternating x = true ∧ textNonEmpty x = true :=
      fun x hx => hall x (List.mem_cons_of_mem e hx)
    cases e with
    | role re =>
      obtain ⟨st2, hfold, hlen, hm2, hc2⟩ :=
        ih (deposit_messages st re.role) hrest
          (deposit_content st re.role hmsg hcur)
          (by rw [deposit_elements]; intro s hs; exact absurd hs (List.not_mem_nil s))
      refine ⟨st2, ?_, ?_, hm2, hc2⟩
      · simpa [build_fold, build_step] using hfold
      · rw [hlen, deposit_len]
        have hmark : isRoleMarker (PromptElement.role re) = true := rfl
        simp [countRunsAux, hmark, pendingCount, deposit_elements]
    | text te =>
      have hrole : te.role = none := by
        have h1 : te.role.isNone = true := by simpa [plainAlternating] using he.1
        exact Option.isNone_iff_eq_none.mp h1
      have htext : te.text ≠ ("") := by
        intro habs
        have h2 : textNonEmpty (PromptElement.text te) = true := he.2
        rw [textNonEmpty, habs] at h2
        simp at h2
      obtain ⟨st2, hfold, hlen, hm2, hc2⟩ :=
        ih (appendElem st te.text) hrest (by simpa [appendElem] using hmsg)
          (by
            intro s hs
            rcases List.mem_append.mp hs with h1 | h2
            · exact hcur s h1
            · rw [List.mem_singleton.mp h2]; exact htext)
      refine ⟨st2, ?_, ?_, hm2, hc2⟩
      · simpa [build_fold, build_step, hrole, PromptElement.as_string, TextElement.as_string]
          using hfold
      · rw [hlen]
        have hmark : isRoleMarker (PromptElement.text te) = false := rfl
        have happ : (appendElem st te.text).current_message_elements.isEmpty = false := by
          simp [appendElem]
        have happ2 : pendingCount (appendElem st te.text) = 1 := by
          simp [pendingCount, appendElem]
        have happ3 : (appendElem st te.text).messages = st.messages := rfl
        rw [happ3, happ2]
        simp only [countRunsAux, hmark, if_false, happ]
        unfold pendingCount
        by_cases hp : st.current_message_elements.isEmpty <;> (simp [hp]; try omega)
    | context ce => simp [plainAlternating] at he
    | str s => simp [plainAlternating] at he

theorem build_fold_total (qs : QuoteStyle) :
    ∀ (elems : List PromptElement) (st : BuildState),
      ∃ st2, build_fold qs st elems = Except.ok st2 := by
  intro elems
  induction elems with
  | nil => intro st; exact ⟨st, rfl⟩
  | cons e rest ih =>
    intro st
    cases e with
    | role re =>
      obtain ⟨st2, h⟩ := ih (deposit_messages st re.role)
      exact ⟨st2, by simpa [build_fold, build_step] using h⟩
    | text te =>
      cases hr : te.role with
      | none =>
        obtain ⟨st2, h⟩ := ih (appendElem st te.text)
        exact ⟨st2, by
          simpa [build_fold, build_step, hr, PromptElement.as_string, TextElement.as_string]
            using h⟩
      | some r =>
        obtain ⟨st2, h⟩ := ih (appendElem (deposit_messages st r) te.text)
        exact ⟨st2, by
          simpa [build_fold, build_step, hr, PromptElement.as_string, TextElement.as_string]
            using h⟩
    | context ce =>
      obtain ⟨st2, h⟩ := ih (appendElem st (ContextElement.as_string ce qs))
      exact ⟨st2, by
        simpa [build_fold, build_step, PromptElement.as_string] using h⟩
    | str s =>
      obtain ⟨st2, h⟩ := ih (appendElem st s)
      exact ⟨st2, by simpa [build_fold, build_step] using h⟩

/-- C8: for every prompt given as a bare string, `build_messages` produces
exactly one message, with role "user" and content equal to the input string
verbatim, before any token-budget trimming applies. -/
theorem C8_bare_string_single_user_message (s : String) (model : String) (qs : Option QuoteStyle) :
    build_messages (MessageConfig.str s) model qs
      = Except.ok [{ role := ("user"), content := s }] := rfl

/-- C9: rendering a RoleElement is a fatal error (`as_string` returns the
`RuntimeError` branch), and message assembly never reaches that branch:
`build_messages` succeeds on every input, because the assembler consumes
each RoleElement as a control element before any `as_string` call. -/
theorem C9_role_render_unreachable :
    (∀ (re : RoleElement) (qs : QuoteStyle),
        RoleElement.as_string re qs = Except.error ("RoleElement cannot be converted to a string."))
    ∧ (∀ (cfg : MessageConfig) (model : String) (qs : Option QuoteStyle),
        isOkE (build_messages cfg model qs) = true) := by
  constructor
  · intro re qs; rfl
  · intro cfg model qs
    cases cfg with
    | str s => rfl
    | elems l =>
      obtain ⟨st2, h⟩ :=
        build_fold_total (resolve_quote_style model qs) l
          { messages := [], current_role := ("user"), current_message_elements := [] }
      have hbm : build_messages (MessageConfig.elems l) model qs
          = build_messages_list (resolve_quote_style model qs) l := rfl
      rw [hbm]
      unfold build_messages_list
      rw [h]
      by_cases hp : st2.current_message_elements.isEmpty <;> simp [hp, isOkE]

/-- C6 counterexample: the alternating sequence
`[RoleSwitch "user", TextBlock ""]` assembles to a single message whose
content is the empty string, contradicting the claim that no assembled
message has empty content. -/
theorem C6_counterexample :
    build_messages_list QuoteStyle.backticks
        [PromptElement.role { role := ("user") }, PromptElement.text { text := (""), role := none }]
      = Except.ok [{ role := ("user"), content := ("") }] := rfl

/-- C6 (corrected): for every sequence of RoleSwitch markers and TextBlocks
without role overrides in which every TextBlock has non-empty text, assembly
succeeds, the message count equals the number of role segments containing at
least one TextBlock, and no assembled message has empty content. -/
theorem C6_alternating_segment_count (qs : QuoteStyle) (elems : List PromptElement)
    (h : ∀ e ∈ elems, plainAlternating e = true ∧ textNonEmpty e = true) :
    ∃ msgs, build_messages_list qs elems = Except.ok msgs
      ∧ msgs.length = countTextRuns elems
      ∧ ∀ m ∈ msgs, m.content ≠ ("") := by
  obtain ⟨st2, hfold, hlen, hm2, hc2⟩ :=
    build_fold_invariant qs elems
      { messages := [], current_role := ("user"), current_message_elements := [] }
      h (by intro m hm; exact absurd hm (List.not_mem_nil m))
      (by intro s hs; exact absurd hs (List.not_mem_nil s))
  unfold build_messages_list
  rw [hfold]
  have hlen2 : st2.messages.length + pendingCount st2 = countTextRuns elems := by
    rw [countTextRuns]
    simpa [pendingCount] using hlen
  by_cases hp : st2.current_message_elements.isEmpty
  · refine ⟨st2.messages, by simp [hp], ?_, hm2⟩
    have h0 : pendingCount st2 = 0 := by simp [pendingCount, hp]
    omega
  · refine ⟨st2.messages
        ++ [{ role := st2.current_role, content := joinStrs st2.current_message_elements }],
      by simp [hp], ?_, ?_⟩
    · have h1 : pendingCount st2 = 1 := by simp [pendingCount, hp]
      simp only [List.length_append, List.length_singleton]
      omega
    · intro m hm
      rcases List.mem_append.mp hm with h1 | h2
      · exact hm2 m h1
      · rw [List.mem_singleton.mp h2]
        have hne : st2.current_message_elements ≠ [] := by
          intro hnil; rw [hnil] at hp; exact hp rfl
        exact joinStrs_ne_empty _ hne hc2

/-- C6 witness: the amended theorem applied to the concrete alternating
sequence `[RoleSwitch "system", TextBlock "a", RoleSwitch "user", TextBlock "b"]`. -/
theorem C6_alternating_segment_count_witness :
    ∃ msgs, build_messages_list QuoteStyle.backticks
        [PromptElement.role { role := ("system") },
         PromptElement.text { text := ("a"), role := none },
         PromptElement.role { role := ("user") },
         PromptElement.text { text := ("b"), role := none }]
      = Except.ok msgs
      ∧ msgs.length = countTextRuns
          [PromptElement.role { role := ("system") },
           PromptElement.text { text := ("a"), role := none },
           PromptElement.role { role := ("user") },
           PromptElement.text { text := ("b"), role := none }]
      ∧ ∀ m ∈ msgs, m.content ≠ ("") :=
  C6_alternating_segment_count QuoteStyle.backticks _ (by decide)

/-- C3 counterexample: in tool-calling mode (schema present, model without
"gpt"), a delta carrying text content but no tool call terminates the stream
immediately — no event is emitted for it or for the following delta — even
though the delta does not resolve to nothing. -/
theorem C3_counterexample :
    litellm_yield_loop (litellm_tool_mode ("claude-3-opus") true)
        [{ content := some ("Hello"), tool_calls := none },
         { content := some ("!"), tool_calls := none }] none = []
    ∧ ({ content := some ("Hello"), tool_calls := none } : Delta).content ≠ none := by
  constructor
  · rfl
  · simp

/-- C3 (corrected): the generic adapter's stream ends exactly when the
underlying stream is exhausted or the mode-relevant payload of a delta is
absent — the tool-call argument fragment in tool-calling mode, the text
content otherwise; the yielded texts are precisely the payloads of the
longest prefix of deltas whose mode-relevant payload is present. -/
theorem C3_termination_rule (model : String) (schemaPresent : Bool)
    (ds : List Delta) (ti : Option Nat) :
    (litellm_yield_loop (litellm_tool_mode model schemaPresent) ds ti).map Prod.fst
      = collectWhileSome (ds.map (modePayload (litellm_tool_mode model schemaPresent))) := by
  generalize litellm_tool_mode model schemaPresent = tm
  induction ds generalizing ti with
  | nil => rfl
  | cons d rest ih =>
    cases tm with
    | false =>
      cases hc : d.content with
      | none => simp [litellm_yield_loop, modePayload, collectWhileSome, hc]
      | some s => simp [litellm_yield_loop, modePayload, collectWhileSome, hc, ih]
    | true =>
      cases htc : d.tool_calls with
      | none => simp [litellm_yield_loop, modePayload, collectWhileSome, htc]
      | some tc =>
        cases ha : tc.arguments with
        | none => simp [litellm_yield_loop, modePayload, collectWhileSome, htc, ha]
        | some s => simp [litellm_yield_loop, modePayload, collectWhileSome, htc, ha, ih]

/-- C4 counterexample: the model identifier "openai/gpt-4o" does not have the
prefix "gpt", yet with a schema requested the generic adapter gives it the
provider-native strict JSON-schema response format, because the code tests
substring containment (`"gpt" not in model`), not a prefix. -/
theorem C4_counterexample :
    schema_kwargs ("openai/gpt-4o") (some (0 : Nat))
        = SchemaKwargs.responseFormat ("function") 0 true
    ∧ pyStartsWith ("openai/gpt-4o") ("gpt") = false := by
  constructor
  · rfl
  · rfl

/-- C4 (corrected): with a schema requested, the generic adapter uses the
provider-native strict JSON-schema response format exactly when the model
identifier contains the substring "gpt"; every other schema-requesting model
is driven through a single synthetic function tool whose parameter schema is
the requested schema, with tool choice forced to "required". -/
theorem C4_schema_mode_by_substring {σ : Type} (model : String) (js : σ) :
    (schema_kwargs model (some js) = SchemaKwargs.responseFormat ("function") js true
        ↔ strIn ("gpt") model = true)
    ∧ (strIn ("gpt") model = false
        → schema_kwargs model (some js) = SchemaKwargs.toolCalling ("required") ("function") js) := by
  unfold schema_kwargs use_tool_calling
  by_cases h : strIn ("gpt") model <;> simp [h]

/-- C4 witness: the amended theorem applied to a model without "gpt" in its
identifier, forcing the synthetic-tool path. -/
theorem C4_schema_mode_by_substring_witness :
    schema_kwargs ("llama-3") (some (0 : Nat))
      = SchemaKwargs.toolCalling ("required") ("function") 0 :=
  (C4_schema_mode_by_substring ("llama-3") 0).2 (by decide)

theorem mergeDecodedBuffers_fail {α : Type} (loads : String → Option (List (String × α))) :
    ∀ (l : List String) (d : List (String × α)),
      (∃ s ∈ l, loads s = none) → mergeDecodedBuffers loads d l = none := by
  intro l
  induction l with
  | nil =>
    intro d h
    obtain ⟨s, hs, _⟩ := h
    exact absurd hs (List.not_mem_nil s)
  | cons tr rest ih =>
    intro d h
    obtain ⟨s, hs, hnone⟩ := h
    cases hl : loads tr with
    | none => simp [mergeDecodedBuffers, hl]
    | some obj =>
      rcases List.mem_cons.mp hs with heq | hmem
      · rw [heq] at hnone; rw [hnone] at hl; exact absurd hl (by simp)
      · simp [mergeDecodedBuffers, hl]
        exact ih _ ⟨s, hmem, hnone⟩

theorem mergeDecodedBuffers_ok {α : Type} (loads : String → Option (List (String × α))) :
    ∀ (trs : List String) (objs : List (List (String × α))) (d : List (String × α)),
      List.Forall₂ (fun s o => loads s = some o) trs objs →
      mergeDecodedBuffers loads d trs = some (objs.foldl pyDictMerge d) := by
  intro trs objs d h
  induction h generalizing d with
  | nil => rfl
  | cons hrel htail ih => simp [mergeDecodedBuffers, hrel, ih]

/-- C1 counterexample: two tool-slot buffers where the first decodes and the
second does not; the claim predicts that merging continues with the decodable
buffer and finalization succeeds, but `parse_structured_response` returns
failure, because the single `try` block around the merge loop makes any
decode failure fatal for the whole finalization. -/
theorem C1_counterexample :
    parse_structured_response c1_loads (some c1_validate) [(0, ("A")), (1, ("bad"))] ("") = none
    ∧ c1_loads ("A") = some [(("a"), 1)] := by
  constructor
  · rfl
  · rfl

/-- C1 (corrected): when at least one tool-slot buffer exists, a JSON-decode
failure of any single buffer is fatal for the entire finalization (it returns
failure, regardless of other buffers); only when every buffer decodes are the
objects merged in slot insertion order — on key collisions the latest
binding, i.e. the later slot, wins — and the merged object is returned when
it validates. -/
theorem C1_finalizer_merge (α : Type) (loads : String → Option (List (String × α)))
    (validate : List (String × α) → Bool) (trs : List (Nat × String)) (out : String)
    (hne : trs ≠ []) :
    ((∃ p ∈ trs, loads p.2 = none)
        → parse_structured_response loads (some validate) trs out = none)
    ∧ (∀ objs : List (List (String × α)),
        List.Forall₂ (fun s o => loads s = some o) (trs.map (fun p => p.2)) objs →
        validate (mergeAll objs) = true →
        parse_structured_response loads (some validate) trs out = some (mergeAll objs)
          ∧ ∀ k, pyDictGet? (mergeAll objs) k = lastBinding objs k) := by
  have hEmpty : trs.isEmpty = false := by
    cases trs with
    | nil => exact absurd rfl hne
    | cons a t => rfl
  constructor
  · rintro ⟨p, hp, hnone⟩
    unfold parse_structured_response
    rw [hEmpty]
    simp only [Bool.false_eq_true, if_false]
    rw [mergeDecodedBuffers_fail loads _ _ ⟨p.2, List.mem_map.mpr ⟨p, hp, rfl⟩, hnone⟩]
  · intro objs hforall hval
    refine ⟨?_, fun k => pyDictGet?_mergeAll objs k⟩
    unfold parse_structured_response
    rw [hEmpty]
    simp only [Bool.false_eq_true, if_false]
    rw [mergeDecodedBuffers_ok loads _ _ _ hforall]
    simp only [mergeAll] at hval ⊢
    rw [hval]
    rfl

/-- C1 witness: the amended theorem applied to two decodable buffers, whose
objects are merged in slot order. -/
theorem C1_finalizer_merge_witness :
    parse_structured_response c1_loads (some c1_validate) [(0, ("A")), (1, ("B"))] ("")
      = some (mergeAll [[(("a"), (1 : Int))], [(("b"), 2)]]) :=
  ((C1_finalizer_merge Int c1_loads c1_validate [(0, ("A")), (1, ("B"))] ("") (by decide)).2
    [[(("a"), 1)], [(("b"), 2)]]
    (List.Forall₂.cons rfl (List.Forall₂.cons rfl List.Forall₂.nil)) rfl).1

theorem acc_step_output {α : Type} (loads : String → Option (List (String × α)))
    (st : AccState α) (ev : String × Option Nat) :
    (acc_step loads st ev).output = st.output ++ ev.1 := by
  obtain ⟨d, ti⟩ := ev
  cases ti <;> rfl

theorem foldl_acc_output {α : Type} (loads : String → Option (List (String × α))) :
    ∀ (evs : List (String × Option Nat)) (st : AccState α),
      (evs.foldl (acc_step loads) st).output = concatFrom st.output evs := by
  intro evs
  induction evs with
  | nil => intro st; rfl
  | cons ev rest ih =>
    intro st
    have h1 : (ev :: rest).foldl (acc_step loads) st = rest.foldl (acc_step loads) (acc_step loads st ev) := rfl
    have h2 : concatFrom st.output (ev :: rest) = concatFrom (st.output ++ ev.1) rest := rfl
    rw [h1, h2, ih, acc_step_output]

theorem last_yield_iterate {α : Type} (loads : String → Option (List (String × α))) :
    ∀ (evs : List (String × Option Nat)) (st : AccState α) (acc : String × List (Nat × String)),
      evs ≠ [] →
      last_yield (iterate_invoke_llm_from loads evs st) acc
        = ((evs.foldl (acc_step loads) st).output, (evs.foldl (acc_step loads) st).tool_responses) := by
  intro evs
  induction evs with
  | nil => intro st acc h; exact absurd rfl h
  | cons ev rest ih =>
    intro st acc _
    rcases rest with _ | ⟨ev2, r2⟩
    · rfl
    · have hstep : iterate_invoke_llm_from loads (ev :: ev2 :: r2) st
          = acc_step loads st ev :: iterate_invoke_llm_from loads (ev2 :: r2) (acc_step loads st ev) := rfl
      have hly : last_yield (acc_step loads st ev :: iterate_invoke_llm_from loads (ev2 :: r2) (acc_step loads st ev)) acc
          = last_yield (iterate_invoke_llm_from loads (ev2 :: r2) (acc_step loads st ev))
              ((acc_step loads st ev).output, (acc_step loads st ev).tool_responses) := rfl
      rw [hstep, hly, ih (acc_step loads st ev) _ (by simp)]
      rfl

theorem run_attempts_spec {α : Type} (loads : String → Option (List (String × α))) :
    ∀ (pre : List Attempt) (fin : Attempt) (acc : String × List (Nat × String)),
      (∀ a ∈ pre, a.succeeds = false) → fin.succeeds = true → fin.events ≠ [] →
      run_attempts loads (pre ++ [fin]) acc
        = some ((fin.events.foldl (acc_step loads) freshAcc).output,
                (fin.events.foldl (acc_step loads) freshAcc).tool_responses) := by
  intro pre
  induction pre with
  | nil =>
    intro fin acc _ hs hne
    have h1 : ([] : List Attempt) ++ [fin] = [fin] := rfl
    rw [h1]
    unfold run_attempts
    rw [hs]
    simp only [if_true]
    rw [iterate_invoke_llm, last_yield_iterate loads fin.events freshAcc acc hne]
  | cons a pre ih =>
    intro fin acc hfail hs hne
    have ha : a.succeeds = false := hfail a (List.mem_cons_self a pre)
    have h1 : (a :: pre) ++ [fin] = a :: (pre ++ [fin]) := rfl
    rw [h1]
    unfold run_attempts
    rw [ha]
    simp only [Bool.false_eq_true, if_false]
    exact ih fin _ (fun x hx => hfail x (List.mem_cons_of_mem a hx)) hs hne

/-- C5 counterexample: a first attempt emits the delta "lost" and fails
transiently; a later attempt succeeds without emitting any delta.  The
claim predicts a final output equal to the successful attempt's (empty)
concatenation, but the retry loop's variables retain the failed attempt's
values, so the final accumulated output is "lost" — text emitted during a
failed attempt. -/
theorem C5_counterexample :
    run_loop c5_loads [c5_fail_attempt, c5_empty_ok] = some (("lost"), [])
    ∧ concatFrom ("") c5_empty_ok.events = ("") := by
  constructor
  · rfl
  · rfl

/-- C5 (corrected): when every attempt before the last fails transiently and
the last attempt succeeds after emitting at least one event, the final
accumulated output is exactly the concatenation of the successful attempt's
deltas — no text from any failed attempt — and the final tool buffers are
those accumulated from the successful attempt's events alone, because every
attempt re-runs the accumulator from the fresh state. -/
theorem C5_retry_restart (α : Type) (loads : String → Option (List (String × α)))
    (pre : List Attempt) (fin : Attempt)
    (hfail : ∀ a ∈ pre, a.succeeds = false) (hs : fin.succeeds = true) (hne : fin.events ≠ []) :
    run_loop loads (pre ++ [fin])
      = some (concatFrom ("") fin.events,
              (fin.events.foldl (acc_step loads) freshAcc).tool_responses) := by
  unfold run_loop
  rw [run_attempts_spec loads pre fin _ hfail hs hne, foldl_acc_output]
  rfl

/-- C5 witness: the corrected theorem applied to one failing attempt
followed by a successful attempt emitting "ok" and "!". -/
theorem C5_retry_restart_witness :
    run_loop c5_loads [c5_fail_attempt, c5_ok_attempt] = some (("ok!"), []) :=
  (C5_retry_restart Int c5_loads [c5_fail_attempt] c5_ok_attempt
      (by decide) rfl (by decide)).trans (by decide)

/-- C10: every incremental emission has `data = None` exactly when the merged
partial object has no keys; in particular a tool-slot buffer that decodes to
the empty object `{}` is surfaced as `data = None` (never as an empty
object), indistinguishable mid-stream from no structured result. -/
theorem C10_empty_partial_is_none (α : Type) (loads : String → Option (List (String × α)))
    (events : List (String × Option Nat)) :
    (∀ st ∈ iterate_invoke_llm loads events, ((mkOutputs st).data = none ↔ st.partial_data = []))
    ∧ (iterate_invoke_llm c10_loads [((("\x7b\x7d")), some 0)]).map
          (fun st => ((mkOutputs st).data, st.tool_responses,
            c10_loads ((pyDictGet? st.tool_responses 0).getD (""))))
        = [(none, [(0, ("\x7b\x7d"))], some [])] := by
  constructor
  · intro st _
    unfold mkOutputs
    cases h : st.partial_data with
    | nil => simp [h]
    | cons p rest => simp [h]
  · rfl

/-- C10 witness: the first conjunct applied to a concrete plain-text event. -/
theorem C10_empty_partial_is_none_witness :
    (mkOutputs ({ output := ("a"), tool_responses := [], partial_data := [] } : AccState Int)).data = none
      ↔ ({ output := ("a"), tool_responses := [], partial_data := [] } : AccState Int).partial_data = [] :=
  (C10_empty_partial_is_none Int c5_loads [((("a")), none)]).1
    { output := ("a"), tool_responses := [], partial_data := [] } (by decide)

/-- C2: the claim requires that entering and exiting the credential-injection
context restores the prior environment on every exit path; but when the GCP
secret is absent while `GOOGLE_APPLICATION_CREDENTIALS` was already set,
`exit` deletes the variable `enter` never touched — the `None` backup
sentinel conflates "no backup taken" with "variable was absent".  Evaluating
the model at that input shows the variable gone after exit. -/
theorem C2_env_not_restored :
    ((PromptEnvContext_exit
        (PromptEnvContext_enter c2_secrets ("/tmp/gcp.json") c2_env0 promptEnvContext_init).1
        (PromptEnvContext_enter c2_secrets ("/tmp/gcp.json") c2_env0 promptEnvContext_init).2).1).google_application_credentials
      = none
    ∧ c2_env0.google_application_credentials = some ("/home/user/adc.json") := by
  constructor
  · rfl
  · rfl

/-- C7: Ollama wire parsing is chunk-boundary independent: the two-line
payload delivered as two network chunks split at any byte offset yields
exactly the deltas "Hi" and " there" in order; lines that are malformed,
structurally unexpected, or carry empty content are skipped without error;
and a trailing partial line (no final newline) is still parsed once the
connection closes. -/
theorem C7_chunk_boundary_independent :
    (∀ i, i ≤ ollamaPayload.length →
      (ollama_yields [ollamaPayload.take i, ollamaPayload.drop i]).map jstr?
        = [some (("Hi").toList), some ((" there").toList)])
    ∧ (ollama_yields [ollamaMixedChunk]).map jstr?
        = [some (("Hi").toList), some ((" there").toList)]
    ∧ (ollama_yields [ollamaLine1 ++ ('\n' :: ollamaLine2)]).map jstr?
        = [some (("Hi").toList), some ((" there").toList)] := by
  refine ⟨?_, by rfl, by rfl⟩
  decide

/-- C7 witness: the split-invariance conjunct applied at the concrete offset
5, in the middle of the first line. -/
theorem C7_chunk_boundary_independent_witness :
    (ollama_yields [ollamaPayload.take 5, ollamaPayload.drop 5]).map jstr?
      = [some (("Hi").toList), some ((" there").toList)] :=
  C7_chunk_boundary_independent.1 5 (by decide)
